import Mathlib

/-!
Verification of the controller/GUI core of the MeerK40t excerpt.

The definitions below are shallow embeddings of:
- `meerk40t/gui/lhystudioscontrollergui.py` (`LhystudiosControllerGui`):
  buffer tracking, connection-state and control-state event handlers,
  the connect/disconnect button and the pause/stop menu handlers;
- `meerk40t/gui/wxmeerk40t.py` (`wxMeerK40t.__init__`): the scheduler timer
  configuration;
- `meerk40t/core/node/elem_point.py` (`PointNode`): bounds caching and the
  point-editing interface.

The controller/kernel state machine itself is not part of the excerpt (the GUI
only observes it over signals); where a property is about that machine, the
machine is modelled from the specification and the definition's doc comment
says so.
-/

namespace MeerK40t

/-! ## Packet buffer tracking (`LhystudiosControllerGui.on_buffer_update`) -/

/-- Buffer-related window state of `LhystudiosControllerGui`.  `__init__`
(lines 136-138) sets `self.buffer_max = 1` and `self.gui_update = True`;
`text_buffer_length` and `gauge_buffer` mirror the widgets written by
`on_buffer_update` (lines 443-449). -/
structure BufferGui where
  buffer_max : Nat
  gui_update : Bool
  text_buffer_length : Nat
  gauge_range : Nat
  gauge_value : Nat
  deriving DecidableEq, Repr

/-- The state as initialised by `__init__`: `buffer_max = 1`, `gui_update = True`
(widget display fields start blank, rendered here as 0). -/
def BufferGui.init : BufferGui :=
  { buffer_max := 1, gui_update := true,
    text_buffer_length := 0, gauge_range := 0, gauge_value := 0 }

/-- `on_buffer_update(self, origin, value, *args)` (lines 443-449): when
`gui_update` is set, raises `buffer_max` to `value` if exceeded, shows `value`,
sets the gauge range to `buffer_max` and the gauge value to
`min(value, range)`. -/
def on_buffer_update (s : BufferGui) (value : Nat) : BufferGui :=
  if s.gui_update then
    let s1 := if s.buffer_max < value then { s with buffer_max := value } else s
    { s1 with
      text_buffer_length := value,
      gauge_range := s1.buffer_max,
      gauge_value := min value s1.buffer_max }
  else s

/-- Delivering a sequence of `pipe;buffer` events to the window. -/
def runBufferUpdates (s : BufferGui) (vs : List Nat) : BufferGui :=
  vs.foldl on_buffer_update s

/-- The maximum depth value occurring in a sequence of buffer updates. -/
def maxSeen (vs : List Nat) : Nat :=
  vs.foldl max 0

theorem on_buffer_update_gui_update (s : BufferGui) (v : Nat) :
    (on_buffer_update s v).gui_update = s.gui_update := by
  unfold on_buffer_update
  split
  · split <;> rfl
  · rfl

theorem on_buffer_update_buffer_max (s : BufferGui) (v : Nat)
    (h : s.gui_update = true) :
    (on_buffer_update s v).buffer_max = max s.buffer_max v := by
  unfold on_buffer_update
  rw [if_pos h]
  split <;> simp <;> omega

theorem runBufferUpdates_buffer_max (vs : List Nat) :
    ∀ s : BufferGui, s.gui_update = true →
      (runBufferUpdates s vs).buffer_max = vs.foldl max s.buffer_max := by
  induction vs with
  | nil => intro s _; rfl
  | cons v vs ih =>
    intro s h
    have h2 : (on_buffer_update s v).gui_update = true := by
      rw [on_buffer_update_gui_update]; exact h
    calc (runBufferUpdates s (v :: vs)).buffer_max
        = (runBufferUpdates (on_buffer_update s v) vs).buffer_max := rfl
      _ = vs.foldl max (on_buffer_update s v).buffer_max := ih _ h2
      _ = vs.foldl max (max s.buffer_max v) := by
          rw [on_buffer_update_buffer_max s v h]

theorem foldl_max_shift (vs : List Nat) :
    ∀ a : Nat, vs.foldl max a = max a (vs.foldl max 0) := by
  induction vs with
  | nil => intro a; simp
  | cons v vs ih =>
    intro a
    simp only [List.foldl_cons]
    rw [ih (max a v), ih (max 0 v)]
    omega

/-- C1 (counterexample): the claim says `buffer_max` after a sequence of
`on_buffer_update` deliveries equals the maximum depth value seen, but
`__init__` starts `buffer_max` at 1 and `on_buffer_update` only ever raises it,
so after the single update `[0]` the recorded maximum is 1 while the maximum
depth seen is 0. -/
theorem buffer_max_not_max_seen :
    (runBufferUpdates BufferGui.init [0]).buffer_max ≠ maxSeen [0] := by
  decide

/-- C1 (amended): after any sequence of `on_buffer_update` deliveries to a
freshly initialised window, `buffer_max` equals the maximum of its initial
value 1 and every depth value seen, and `buffer_max` is monotonically
non-decreasing at every single update step. -/
theorem buffer_max_equals_running_max :
    (∀ vs : List Nat,
      (runBufferUpdates BufferGui.init vs).buffer_max = max 1 (maxSeen vs)) ∧
    (∀ (s : BufferGui) (v : Nat),
      s.buffer_max ≤ (on_buffer_update s v).buffer_max) := by
  constructor
  · intro vs
    rw [runBufferUpdates_buffer_max vs BufferGui.init rfl, foldl_max_shift]
    rfl
  · intro s v
    unfold on_buffer_update
    split
    · split
      · simp
        omega
      · simp
    · exact Nat.le_refl _

/-- C1 (witness): the amended equation evaluated on the concrete update
sequence `[3, 2]`. -/
theorem buffer_max_equals_running_max_witness :
    (runBufferUpdates BufferGui.init [3, 2]).buffer_max = max 1 (maxSeen [3, 2]) :=
  buffer_max_equals_running_max.1 [3, 2]

/-! ## `PointNode` (`meerk40t/core/node/elem_point.py`) -/

/-- Affine matrix as in `svgelements.Matrix` (an external dependency of the
repository): `(a, b, c, d, e, f)` with the row-vector convention
`x2 = a*x + c*y + e`, `y2 = b*x + d*y + f`.  Coordinates are embedded as exact
rationals. -/
structure SvgMatrix where
  a : Rat
  b : Rat
  c : Rat
  d : Rat
  e : Rat
  f : Rat
  deriving DecidableEq, Repr

/-- `Matrix.transform_point` of `svgelements`. -/
def SvgMatrix.transform_point (m : SvgMatrix) (p : Rat × Rat) : Rat × Rat :=
  (m.a * p.1 + m.c * p.2 + m.e, m.b * p.1 + m.d * p.2 + m.f)

/-- `Matrix.__mul__` of `svgelements`: composition so that transforming by
`m.mul n` is transforming by `m` and then by `n`. -/
def SvgMatrix.mul (m n : SvgMatrix) : SvgMatrix :=
  { a := m.a * n.a + m.b * n.c
    b := m.a * n.b + m.b * n.d
    c := m.c * n.a + m.d * n.c
    d := m.c * n.b + m.d * n.d
    e := m.e * n.a + m.f * n.c + n.e
    f := m.e * n.b + m.f * n.d + n.f }

/-- The fields of `PointNode` relevant to its geometry: `point` and `matrix`
are set by `__init__`; `bounds_store` and `bounds_dirty` embed the `_bounds` /
`_bounds_dirty` cache slots of the `Node` base class that the `bounds` property
and `preprocess` read and write. -/
structure PointNode where
  point : Rat × Rat
  matrix : SvgMatrix
  stroke_width : Option Rat
  lock : Bool
  bounds_store : Option (Rat × Rat × Rat × Rat)
  bounds_dirty : Bool
  deriving DecidableEq, Repr

/-- The `bounds` property (lines 58-69): when the cache is dirty, transforms
`point` by `matrix`, stores the degenerate rectangle `(p0, p1, p0, p1)` and
clears the dirty flag; otherwise returns the stored `_bounds` untouched.  The
result pairs the (possibly updated) node with the returned bounds. -/
def PointNode.bounds (n : PointNode) : PointNode × Option (Rat × Rat × Rat × Rat) :=
  if n.bounds_dirty then
    let p := n.matrix.transform_point n.point
    let b := (p.1, p.2, p.1, p.2)
    ({ n with bounds_store := some b, bounds_dirty := false }, some b)
  else
    (n, n.bounds_store)

/-- `preprocess` (lines 54-56): `self.matrix *= matrix` then
`self._bounds_dirty = True`. -/
def PointNode.preprocess (n : PointNode) (m : SvgMatrix) : PointNode :=
  { n with matrix := n.matrix.mul m, bounds_dirty := true }

/-- `update_point(self, index, point)` (lines 114-115): returns `False`, node
untouched. -/
def PointNode.update_point (n : PointNode) (_index : Nat) (_point : Rat × Rat) :
    PointNode × Bool :=
  (n, false)

/-- `add_point(self, point, index=None)` (lines 117-118): returns `False`, node
untouched. -/
def PointNode.add_point (n : PointNode) (_point : Rat × Rat) (_index : Option Nat) :
    PointNode × Bool :=
  (n, false)

theorem PointNode.bounds_clean (n : PointNode) (h : n.bounds_dirty = false) :
    PointNode.bounds n = (n, n.bounds_store) := by
  unfold PointNode.bounds
  rw [if_neg (by rw [h]; exact Bool.false_ne_true)]

theorem PointNode.bounds_fst_dirty (n : PointNode) :
    ((PointNode.bounds n).1).bounds_dirty = false := by
  unfold PointNode.bounds
  split
  · rfl
  · next h =>
    simp only [Bool.not_eq_true] at h
    exact h

theorem PointNode.bounds_fst_store (n : PointNode) :
    ((PointNode.bounds n).1).bounds_store = (PointNode.bounds n).2 := by
  unfold PointNode.bounds
  split <;> rfl

/-- C9: on a dirty cache the `bounds` property returns the degenerate rectangle
`(x, y, x, y)` at `matrix.transform_point(point)` (so the minimum corner always
equals the maximum corner); on a clean cache it returns the stored value with
the node untouched; a second read after a read is cached (node and value
unchanged, dirty flag clear); `preprocess` marks the cache dirty, after which
`bounds` recomputes from the updated matrix. -/
theorem pointnode_bounds_degenerate_cached :
    (∀ n : PointNode, n.bounds_dirty = true →
      (PointNode.bounds n).2 =
        some ((n.matrix.transform_point n.point).1,
              (n.matrix.transform_point n.point).2,
              (n.matrix.transform_point n.point).1,
              (n.matrix.transform_point n.point).2)) ∧
    (∀ n : PointNode, n.bounds_dirty = false →
      PointNode.bounds n = (n, n.bounds_store)) ∧
    (∀ n : PointNode,
      ((PointNode.bounds n).1).bounds_dirty = false ∧
      PointNode.bounds (PointNode.bounds n).1 =
        ((PointNode.bounds n).1, (PointNode.bounds n).2)) ∧
    (∀ (n : PointNode) (m : SvgMatrix),
      (PointNode.preprocess n m).bounds_dirty = true ∧
      (PointNode.bounds (PointNode.preprocess n m)).2 =
        some (((n.matrix.mul m).transform_point n.point).1,
              ((n.matrix.mul m).transform_point n.point).2,
              ((n.matrix.mul m).transform_point n.point).1,
              ((n.matrix.mul m).transform_point n.point).2)) := by
  refine ⟨?_, ?_, ?_, ?_⟩
  · intro n h
    unfold PointNode.bounds
    rw [if_pos h]
  · exact PointNode.bounds_clean
  · intro n
    refine ⟨PointNode.bounds_fst_dirty n, ?_⟩
    rw [PointNode.bounds_clean _ (PointNode.bounds_fst_dirty n),
      PointNode.bounds_fst_store]
  · intro n m
    exact ⟨rfl, rfl⟩

/-- A concrete `PointNode` with a dirty bounds cache: point `(2, 3)` under the
translation by `(3, 4)`. -/
def pnExample : PointNode :=
  { point := (2, 3), matrix := ⟨1, 0, 0, 1, 3, 4⟩,
    stroke_width := none, lock := false,
    bounds_store := none, bounds_dirty := true }

/-- The same node with a clean cache. -/
def pnClean : PointNode :=
  { pnExample with bounds_dirty := false }

/-- C9 (witness): the dirty-cache and clean-cache parts of
`pointnode_bounds_degenerate_cached` evaluated on concrete nodes. -/
theorem pointnode_bounds_degenerate_cached_witness :
    (pnExample.bounds_dirty = true ∧
      (PointNode.bounds pnExample).2 = some (5, 7, 5, 7)) ∧
    (pnClean.bounds_dirty = false ∧
      PointNode.bounds pnClean = (pnClean, pnClean.bounds_store)) := by
  refine ⟨⟨rfl, ?_⟩, ⟨rfl, ?_⟩⟩
  · have h := pointnode_bounds_degenerate_cached.1 pnExample rfl
    rw [h]
    norm_num [pnExample, SvgMatrix.transform_point]
  · exact pointnode_bounds_degenerate_cached.2.1 pnClean rfl

/-- C10: `update_point` and `add_point` return `False` for every node and all
arguments and leave every field of the node unchanged: a `PointNode`'s geometry
cannot be edited through the point-editing interface. -/
theorem pointnode_point_editing_rejected :
    ∀ (n : PointNode) (i : Nat) (oi : Option Nat) (p : Rat × Rat),
      PointNode.update_point n i p = (n, false) ∧
      PointNode.add_point n p oi = (n, false) :=
  fun _ _ _ _ => ⟨rfl, rfl⟩

/-! ## Control states and the controller state machine -/

/-- The thread/control states imported by `lhystudioscontrollergui.py` from the
kernel: `STATE_INITIALIZE`, `STATE_IDLE`, `STATE_BUSY`, `STATE_WAIT`,
`STATE_PAUSE`, `STATE_ACTIVE`, `STATE_TERMINATE`, `STATE_END`. -/
inductive ControlState where
  | initial
  | idle
  | busy
  | wait
  | pause
  | active
  | terminate
  | ended
  deriving DecidableEq, Repr, Fintype

/-- The control commands of the excerpt's command-string interface:
`usb_connect`/`usb_disconnect` (rendered `connect`/`disconnect`), `pause`,
`resume`, `start`, `hold`, and the emergency `estop` (the spec treats
`abort`/`estop` together). -/
inductive Cmd where
  | connect
  | disconnect
  | pause
  | resume
  | start
  | hold
  | estop
  deriving DecidableEq, Repr, Fintype

/-- Outcome of dispatching a command: an accepted transition, a command ignored
as inapplicable (acknowledged, no error), or a rejected unknown command
(the spec's CommandSyntaxError). -/
inductive DispatchResult where
  | accepted (s : ControlState)
  | ignored
  | cmdError
  deriving DecidableEq, Repr

/-- Modelled from the spec: the controller state machine's command handling
(§4.3, §5 of the spec); the kernel/controller implementation is not part of the
excerpt.  `estop`/`abort` is guaranteed-immediate and pre-empts the `Busy`
lock (halting to `Terminate`, or resetting `Terminate` to `Idle`); while
`Busy`, every ordinary request is ignored rather than queued or errored;
the remaining rows follow the spec's transition table. -/
def controlDispatch (s : ControlState) (c : Cmd) : DispatchResult :=
  match c with
  | .estop =>
    .accepted (match s with
      | .terminate => .idle
      | _ => .terminate)
  | _ =>
    match s, c with
    | .busy, _ => .ignored
    | .initial, .start => .accepted .active
    | .ended, .start => .accepted .active
    | .idle, .start => .accepted .active
    | .active, .hold => .accepted .pause
    | .active, .pause => .accepted .pause
    | .pause, .resume => .accepted .active
    | _, _ => .ignored

/-- Modelled from the spec: parsing of the command-string interface (§6);
unknown command names fail to parse. -/
def parseCommand (text : String) : Option Cmd :=
  if text = "usb_connect\n" then some .connect
  else if text = "usb_disconnect\n" then some .disconnect
  else if text = "pause\n" then some .pause
  else if text = "resume\n" then some .resume
  else if text = "start\n" then some .start
  else if text = "hold\n" then some .hold
  else if text = "estop\n" then some .estop
  else if text = "abort\n" then some .estop
  else none

/-- Modelled from the spec: the command dispatcher (§4.4) maps command text to
controller actions; unknown command names are rejected with a syntax error,
known ones are handed to the state machine. -/
def consoleDispatch (s : ControlState) (text : String) : DispatchResult :=
  match parseCommand text with
  | none => .cmdError
  | some c => controlDispatch s c

/-- Events that can change the control state: a dispatched command, or the
asynchronous completion of the in-flight transmission (which releases `Busy`).
The completion event is modelled from the spec (§3 `ControlState` invariant). -/
inductive CtrlEvent where
  | command (c : Cmd)
  | transmissionComplete
  deriving DecidableEq, Repr, Fintype

/-- One step of the modelled controller: an accepted command moves the state,
an ignored or erroneous one leaves it; completion of the in-flight
transmission releases `Busy` to `Idle`. -/
def controlStep (s : ControlState) (e : CtrlEvent) : ControlState :=
  match e with
  | .command c =>
    match controlDispatch s c with
    | .accepted s2 => s2
    | _ => s
  | .transmissionComplete =>
    match s with
    | .busy => .idle
    | _ => s

/-- C2: in every control state, including `Busy`, the `estop` command is
delivered (never ignored or errored) and causes an immediate transition,
while the ordinary `pause`/`disconnect`/`connect` requests are rejected by the
`Busy` lock. -/
theorem estop_preempts_busy_lock :
    (∀ s : ControlState,
      controlDispatch s Cmd.estop =
        DispatchResult.accepted
          (if s = ControlState.terminate then ControlState.idle
           else ControlState.terminate)) ∧
    (∀ s : ControlState, controlStep s (CtrlEvent.command Cmd.estop) ≠ s) ∧
    controlDispatch ControlState.busy Cmd.pause = DispatchResult.ignored ∧
    controlDispatch ControlState.busy Cmd.disconnect = DispatchResult.ignored ∧
    controlDispatch ControlState.busy Cmd.connect = DispatchResult.ignored := by
  refine ⟨?_, ?_, rfl, rfl, rfl⟩ <;> decide

/-- C2 (witness): `estop` dispatched while `Busy` is accepted and transitions. -/
theorem estop_preempts_busy_lock_witness :
    controlDispatch ControlState.busy Cmd.estop =
      DispatchResult.accepted
        (if ControlState.busy = ControlState.terminate then ControlState.idle
         else ControlState.terminate) :=
  estop_preempts_busy_lock.1 ControlState.busy

/-- C3 (counterexample): the claim says the `Busy` lock clears only when the
in-flight transmission completes, but the emergency `estop` command — which the
spec requires to pre-empt the lock — also moves the controller out of `Busy`,
and it is not the transmission-completion event. -/
theorem busy_cleared_by_estop_cex :
    controlStep ControlState.busy (CtrlEvent.command Cmd.estop) ≠ ControlState.busy ∧
    CtrlEvent.command Cmd.estop ≠ CtrlEvent.transmissionComplete := by
  decide

/-- C3 (amended): while `Busy`, the manual `connect`/`disconnect`/`pause`
requests are rejected (the state does not change), reported as ignored rather
than as an error — also through the command-string interface — and the `Busy`
lock clears only when the in-flight transmission completes or the emergency
`estop` is delivered. -/
theorem busy_lock_rejects_manual_requests :
    controlDispatch ControlState.busy Cmd.connect = DispatchResult.ignored ∧
    controlDispatch ControlState.busy Cmd.disconnect = DispatchResult.ignored ∧
    controlDispatch ControlState.busy Cmd.pause = DispatchResult.ignored ∧
    consoleDispatch ControlState.busy "pause\n" = DispatchResult.ignored ∧
    (∀ c : Cmd, controlDispatch ControlState.busy c ≠ DispatchResult.cmdError) ∧
    (∀ e : CtrlEvent, controlStep ControlState.busy e ≠ ControlState.busy →
      e = CtrlEvent.transmissionComplete ∨ e = CtrlEvent.command Cmd.estop) := by
  refine ⟨rfl, rfl, rfl, by decide, by decide, by decide⟩

/-- C3 (witness): the busy-release implication applied to the
transmission-completion event, whose hypothesis holds concretely. -/
theorem busy_lock_rejects_manual_requests_witness :
    controlStep ControlState.busy CtrlEvent.transmissionComplete ≠ ControlState.busy ∧
    (CtrlEvent.transmissionComplete = CtrlEvent.transmissionComplete ∨
     CtrlEvent.transmissionComplete = CtrlEvent.command Cmd.estop) :=
  ⟨by decide,
   busy_lock_rejects_manual_requests.2.2.2.2.2 CtrlEvent.transmissionComplete
     (by decide)⟩

/-! ## The control-state handler (`on_control_state`, lines 451-516) -/

/-- The controller-control button: background colour, label, bitmap, enabled
flag, and the command strings its currently bound click handler would issue. -/
structure ControllerButton where
  bg : String
  label : String
  bitmap : String
  enabled : Bool
  cmds : List String
  deriving DecidableEq, Repr

/-- The window state read and written by `on_control_state`:
`last_control_state` (initialised to `None` in `__init__`, line 137), the
controller status text and the controller-control button. -/
structure ControlGui where
  last_control_state : Option ControlState
  status_text : String
  button : ControllerButton
  deriving DecidableEq, Repr

/-- `on_control_state(self, origin, state)` (lines 451-516): returns
immediately when the state equals `last_control_state`; otherwise records the
state, shows `get_text_thread_state(state)` (passed in as `textOf`, the kernel
being outside the excerpt), and per state rebinds and restyles the button.
The `STATE_BUSY` branch restyles and disables the button without rebinding its
handler.  (The `text_controller_status is None` guard is dropped: the widget is
created in `__init__` and never `None`.) -/
def on_control_state (textOf : ControlState → String) (g : ControlGui)
    (state : ControlState) : ControlGui :=
  if g.last_control_state = some state then g
  else
    let g1 : ControlGui :=
      { g with last_control_state := some state, status_text := textOf state }
    match state with
    | .initial | .ended | .idle =>
      { g1 with button :=
        { bg := "#009900", label := "Hold Controller", bitmap := "icons8_play_50",
          enabled := true, cmds := ["start\n", "hold\n"] } }
    | .busy =>
      { g1 with button :=
        { g1.button with
          bg := "#00dd00"
          label := "LOCKED"
          bitmap := "icons8_play_50"
          enabled := false } }
    | .wait =>
      { g1 with button :=
        { bg := "#dddd00", label := "Force Continue",
          bitmap := "icons8_laser_beam_hazard_50", enabled := true,
          cmds := ["control Wait Abort\n"] } }
    | .pause =>
      { g1 with button :=
        { bg := "#00dd00", label := "Resume Controller",
          bitmap := "icons8_play_50", enabled := true, cmds := ["resume\n"] } }
    | .active =>
      { g1 with button :=
        { bg := "#00ff00", label := "Pause Controller",
          bitmap := "icons8_pause_50", enabled := true, cmds := ["hold\n"] } }
    | .terminate =>
      { g1 with button :=
        { bg := "#00ffff", label := "Manual Reset",
          bitmap := "icons8_emergency_stop_button_50", enabled := true,
          cmds := ["abort\n"] } }

theorem on_control_state_last (textOf : ControlState → String) (g : ControlGui)
    (state : ControlState) :
    (on_control_state textOf g state).last_control_state = some state := by
  unfold on_control_state
  split
  · next h => exact h
  · cases state <;> rfl

theorem on_control_state_fixed (textOf : ControlState → String) (g : ControlGui)
    (state : ControlState) (h : g.last_control_state = some state) :
    on_control_state textOf g state = g := by
  unfold on_control_state
  rw [if_pos h]

/-! ## The connection-state handler (`on_connection_state_change`, lines 389-416) -/

/-- The connection-state strings this window reacts to, published on
`pipe;state`: the five-way dispatch of `on_connection_state_change` plus
`STATE_DRIVER_MOCK`, which appears only in `on_button_start_usb`; `otherState`
stands for any further string, which both handlers leave alone. -/
inductive ConnState where
  | uninitialized
  | connecting
  | usbConnected
  | connectedState
  | usbSetDisconnecting
  | usbDisconnected
  | connectionFailed
  | driverNoBackend
  | driverMock
  | otherState
  deriving DecidableEq, Repr, Fintype

/-- The connect/disconnect button of the window (`button_device_connect`). -/
structure ConnectButton where
  bg : String
  label : String
  bitmap : String
  enabled : Bool
  deriving DecidableEq, Repr

/-- `on_connection_state_change(self, origin, state)` (lines 389-416):
restyles `button_device_connect` by the received state; the failed branch shows
the last `pipe;usb_status` payload (passed in as `usb_status`), any unlisted
state leaves the button untouched. -/
def on_connection_state_change (b : ConnectButton) (state : ConnState)
    (usb_status : String) : ConnectButton :=
  match state with
  | .connectionFailed | .driverNoBackend =>
    { bg := "#dfdf00", label := usb_status,
      bitmap := "icons8_disconnected_50", enabled := true }
  | .uninitialized | .usbDisconnected =>
    { bg := "#ffff00", label := "Connect",
      bitmap := "icons8_connected_50", enabled := true }
  | .usbSetDisconnecting =>
    { bg := "#ffff00", label := "Disconnecting...",
      bitmap := "icons8_disconnected_50", enabled := false }
  | .usbConnected | .connectedState =>
    { bg := "#00ff00", label := "Disconnect",
      bitmap := "icons8_connected_50", enabled := true }
  | .connecting =>
    { bg := "#ffff00", label := "Connecting...",
      bitmap := "icons8_connected_50", enabled := false }
  | .driverMock | .otherState => b

/-- C4: for both state-event subscribers of the window, delivering the same
state twice in a row is a no-op the second time: `on_control_state` returns a
state it has already recorded unchanged (explicit deduplication on
`last_control_state`), and re-running `on_connection_state_change` on an
unchanged state leaves the button exactly as the first delivery did. -/
theorem repeated_state_notification_noop :
    (∀ (textOf : ControlState → String) (g : ControlGui) (state : ControlState),
      on_control_state textOf (on_control_state textOf g state) state =
        on_control_state textOf g state) ∧
    (∀ (b : ConnectButton) (state : ConnState) (usb_status : String),
      on_connection_state_change (on_connection_state_change b state usb_status)
          state usb_status =
        on_connection_state_change b state usb_status) := by
  constructor
  · intro textOf g state
    exact on_control_state_fixed textOf _ state (on_control_state_last textOf g state)
  · intro b state usb_status
    cases state <;> rfl

/-- A concrete window state as left by `__init__`: no control state recorded
yet, the button still carrying its constructed label. -/
def cgFresh : ControlGui :=
  { last_control_state := none
    status_text := ""
    button :=
      { bg := ""
        label := "Start Controller"
        bitmap := "icons8_play_50"
        enabled := true
        cmds := [] } }

/-- The connect/disconnect button as constructed (`"Connection"` label). -/
def cbFresh : ConnectButton :=
  { bg := ""
    label := "Connection"
    bitmap := "icons8_connected_50"
    enabled := true }

/-- C4 (witness): the two no-op equations at a concrete window state. -/
theorem repeated_state_notification_noop_witness :
    (on_control_state (fun _ => "Idle")
        (on_control_state (fun _ => "Idle") cgFresh ControlState.idle)
        ControlState.idle =
      on_control_state (fun _ => "Idle") cgFresh ControlState.idle) ∧
    (on_connection_state_change
        (on_connection_state_change cbFresh ConnState.connecting "usb status")
        ConnState.connecting "usb status" =
      on_connection_state_change cbFresh ConnState.connecting "usb status") :=
  ⟨repeated_state_notification_noop.1 (fun _ => "Idle") cgFresh ControlState.idle,
   repeated_state_notification_noop.2 cbFresh ConnState.connecting "usb status"⟩

/-! ## The pause/stop menu handlers (lines 560-570) -/

/-- Python exceptions distinguished by the two menu handlers: `AttributeError`
(no active controller attached behind the context) as against anything else. -/
inductive PyErr where
  | attributeError
  | otherErr
  deriving DecidableEq, Repr

/-- `on_menu_pause(self, event)` (lines 560-564): dispatches `"pause\n"` to the
context and swallows `AttributeError`; any other exception propagates. -/
def on_menu_pause (context : String → Except PyErr Unit) : Except PyErr Unit :=
  match context "pause\n" with
  | .ok _ => .ok ()
  | .error .attributeError => .ok ()
  | .error e => .error e

/-- `on_menu_stop(self, event)` (lines 566-570): dispatches `"estop\n"` to the
context and swallows `AttributeError`; any other exception propagates. -/
def on_menu_stop (context : String → Except PyErr Unit) : Except PyErr Unit :=
  match context "estop\n" with
  | .ok _ => .ok ()
  | .error .attributeError => .ok ()
  | .error e => .error e

/-- Modelled from the spec: with no active controller attached, executing a
control command reaches a missing attribute, so the context call raises
`AttributeError` and the controller state is untouched (§4.4 and §7 of the
spec, the controller itself being outside the excerpt). -/
def dispatchNoController (s : ControlState) : Except PyErr Unit × ControlState :=
  (.error .attributeError, s)

/-- C6: a command that is valid but inapplicable (pause or estop with no active
controller attached) is a no-op acknowledged without error: both menu handlers
swallow the `AttributeError`, no exception reaches the caller, and the
controller state is unchanged. -/
theorem inapplicable_command_is_noop :
    ∀ s : ControlState,
      on_menu_pause (fun _ => (dispatchNoController s).1) = Except.ok () ∧
      on_menu_stop (fun _ => (dispatchNoController s).1) = Except.ok () ∧
      (dispatchNoController s).2 = s :=
  fun _ => ⟨rfl, rfl, rfl⟩

/-- C6 (witness): the no-op conjunction at the concrete state `Idle`. -/
theorem inapplicable_command_is_noop_witness :
    on_menu_pause (fun _ => (dispatchNoController ControlState.idle).1) =
        Except.ok () ∧
      on_menu_stop (fun _ => (dispatchNoController ControlState.idle).1) =
        Except.ok () ∧
      (dispatchNoController ControlState.idle).2 = ControlState.idle :=
  inapplicable_command_is_noop ControlState.idle

/-! ## The connect/disconnect button (`on_button_start_usb`, lines 418-441) -/

/-- The connection-state side of the controller, modelled from the spec where
it is not observable in the excerpt. -/
inductive ConnEvent where
  | command (c : Cmd)
  | established
  | connectError
  | teardownComplete
  deriving DecidableEq, Repr, Fintype

/-- Modelled from the spec: the connection state machine of the controller
(§4.3 transition table); the kernel/controller implementation is not part of
the excerpt.  `connect` from Uninitialized/Disconnected/ConnectionFailed moves
to Connecting; hardware feedback resolves Connecting; `disconnect` from a
connected state starts the teardown; everything else leaves the state. -/
def connectionStep (s : ConnState) (e : ConnEvent) : ConnState :=
  match s, e with
  | .uninitialized, .command .connect => .connecting
  | .usbDisconnected, .command .connect => .connecting
  | .connectionFailed, .command .connect => .connecting
  | .connecting, .established => .usbConnected
  | .connecting, .connectError => .connectionFailed
  | .usbConnected, .command .disconnect => .usbSetDisconnecting
  | .connectedState, .command .disconnect => .usbSetDisconnecting
  | .usbSetDisconnecting, .teardownComplete => .usbDisconnected
  | _, _ => s

/-- The command text `on_button_start_usb` sends for a given last-signalled
`pipe;state` value (lines 418-428 and 440-441): `usb_connect` when the last
state is `STATE_USB_DISCONNECTED`, `STATE_UNINITIALIZED`,
`STATE_CONNECTION_FAILED`, `STATE_DRIVER_MOCK` or `None`; `usb_disconnect`
when it is `STATE_CONNECTED` or `STATE_USB_CONNECTED`; otherwise nothing. -/
def on_button_start_usb_cmd (last : Option ConnState) : Option String :=
  match last with
  | none => some "usb_connect\n"
  | some .usbDisconnected => some "usb_connect\n"
  | some .uninitialized => some "usb_connect\n"
  | some .connectionFailed => some "usb_connect\n"
  | some .driverMock => some "usb_connect\n"
  | some .connectedState => some "usb_disconnect\n"
  | some .usbConnected => some "usb_disconnect\n"
  | some _ => none

/-- A transport-level connection error as named by Python. -/
inductive ConnError where
  | connectionRefused
  deriving DecidableEq, Repr

/-- What one click of the connection button did: the command text sent to the
context (if any), whether the warning dialog was shown, and any exception that
escaped the handler to wx. -/
structure UsbClickOutcome where
  issued : Option String
  dialog_shown : Bool
  raised : Option ConnError
  deriving DecidableEq, Repr

/-- `on_button_start_usb(self, event)` (lines 418-441), with the context
dispatch passed in: sends the state-selected command; only the `usb_connect`
call is wrapped in `try/except ConnectionRefusedError`, which shows a modal
warning dialog instead of re-raising. -/
def on_button_start_usb (last : Option ConnState)
    (context : String → Except ConnError Unit) : UsbClickOutcome :=
  match on_button_start_usb_cmd last with
  | none => { issued := none, dialog_shown := false, raised := none }
  | some cmd =>
    match context cmd with
    | .ok _ => { issued := some cmd, dialog_shown := false, raised := none }
    | .error e =>
      if cmd = "usb_connect\n" then
        { issued := some cmd, dialog_shown := true, raised := none }
      else
        { issued := some cmd, dialog_shown := false, raised := some e }

/-- Modelled from the source's exception handling (the
`except ConnectionRefusedError` arm of `on_button_start_usb`, lines 429-439)
and the spec's error taxonomy (§7): dispatching `usb_connect` against a
transport that refuses the connection raises `ConnectionRefusedError` to the
dispatching caller, while the connection state machine passes through
Connecting to `STATE_CONNECTION_FAILED`; with a willing transport the dispatch
returns normally and the state reaches `STATE_USB_CONNECTED`. -/
def usbConnectAttempt (refused : Bool) (s : ConnState) :
    Except ConnError Unit × ConnState :=
  if refused then
    (.error .connectionRefused,
     connectionStep (connectionStep s (.command .connect)) .connectError)
  else
    (.ok (),
     connectionStep (connectionStep s (.command .connect)) .established)

/-- C5 (counterexample): the claim says a transport-level failure never
surfaces as a thrown exception crossing a component boundary to the caller,
but a refused `usb_connect` dispatch delivers `ConnectionRefusedError` to
`on_button_start_usb` — which is exactly why that handler wraps the call in
`try/except` and answers with a warning dialog. -/
theorem connection_refused_crosses_boundary_cex :
    (usbConnectAttempt true ConnState.uninitialized).1 =
      Except.error ConnError.connectionRefused ∧
    (on_button_start_usb none
        (fun _ => (usbConnectAttempt true ConnState.uninitialized).1)).dialog_shown =
      true := by
  exact ⟨rfl, rfl⟩

/-- C5 (amended): a refused connection attempt surfaces both as a state
transition to `STATE_CONNECTION_FAILED` (observable on the event bus) and as a
`ConnectionRefusedError` raised to the dispatching caller, which the GUI
handler catches — no exception escapes the handler, the dialog informs the
operator, controller state is not corrupted, and retrying connect from
`STATE_CONNECTION_FAILED` is accepted (the button issues `usb_connect` again
and the machine moves to Connecting). -/
theorem connection_refused_recoverable :
    (∀ last : Option ConnState,
      on_button_start_usb_cmd last = some "usb_connect\n" →
      (on_button_start_usb last
          (fun _ => Except.error ConnError.connectionRefused)).raised = none ∧
      (on_button_start_usb last
          (fun _ => Except.error ConnError.connectionRefused)).dialog_shown = true) ∧
    (usbConnectAttempt true ConnState.uninitialized).2 = ConnState.connectionFailed ∧
    (usbConnectAttempt true ConnState.usbDisconnected).2 = ConnState.connectionFailed ∧
    (usbConnectAttempt true ConnState.connectionFailed).2 = ConnState.connectionFailed ∧
    on_button_start_usb_cmd (some ConnState.connectionFailed) = some "usb_connect\n" ∧
    connectionStep ConnState.connectionFailed (ConnEvent.command Cmd.connect) =
      ConnState.connecting := by
  refine ⟨?_, rfl, rfl, rfl, rfl, rfl⟩
  decide

/-- C5 (witness): the refusal-handling conjunct applied to a click with no
previously signalled state, discharging its hypothesis concretely. -/
theorem connection_refused_recoverable_witness :
    on_button_start_usb_cmd none = some "usb_connect\n" ∧
    (on_button_start_usb none
        (fun _ => Except.error ConnError.connectionRefused)).raised = none :=
  ⟨rfl, (connection_refused_recoverable.1 none rfl).1⟩

/-- C7 (counterexample): the claim says `connect` is issued exactly from
Uninitialized, Disconnected or ConnectionFailed, but `on_button_start_usb`
also issues `usb_connect` when the last state is `STATE_DRIVER_MOCK` (and when
no state has been signalled at all), and `STATE_DRIVER_MOCK` is none of the
three claimed states. -/
theorem connect_gating_cex :
    on_button_start_usb_cmd (some ConnState.driverMock) = some "usb_connect\n" ∧
    ConnState.driverMock ≠ ConnState.uninitialized ∧
    ConnState.driverMock ≠ ConnState.usbDisconnected ∧
    ConnState.driverMock ≠ ConnState.connectionFailed := by
  refine ⟨rfl, ?_, ?_, ?_⟩ <;> decide

/-- C7 (amended): the button issues `usb_connect` exactly when the last
signalled connection state is Uninitialized, Disconnected, ConnectionFailed,
DriverMock, or missing (`None`); it issues `usb_disconnect` exactly from the
two connected states; and (per the spec's table) `connect` from
Uninitialized/Disconnected/ConnectionFailed takes the machine to Connecting. -/
theorem connect_gating :
    (∀ last : Option ConnState,
      on_button_start_usb_cmd last = some "usb_connect\n" ↔
        (last = none ∨ last = some ConnState.uninitialized ∨
         last = some ConnState.usbDisconnected ∨
         last = some ConnState.connectionFailed ∨
         last = some ConnState.driverMock)) ∧
    (∀ last : Option ConnState,
      on_button_start_usb_cmd last = some "usb_disconnect\n" ↔
        (last = some ConnState.usbConnected ∨
         last = some ConnState.connectedState)) ∧
    connectionStep ConnState.uninitialized (ConnEvent.command Cmd.connect) =
      ConnState.connecting ∧
    connectionStep ConnState.usbDisconnected (ConnEvent.command Cmd.connect) =
      ConnState.connecting ∧
    connectionStep ConnState.connectionFailed (ConnEvent.command Cmd.connect) =
      ConnState.connecting := by
  refine ⟨?_, ?_, rfl, rfl, rfl⟩ <;> decide

/-- C7 (witness): the connect-gating equivalence evaluated at the mock state. -/
theorem connect_gating_witness :
    on_button_start_usb_cmd (some ConnState.driverMock) = some "usb_connect\n" ↔
      (some ConnState.driverMock = none ∨
       some ConnState.driverMock = some ConnState.uninitialized ∨
       some ConnState.driverMock = some ConnState.usbDisconnected ∨
       some ConnState.driverMock = some ConnState.connectionFailed ∨
       some ConnState.driverMock = some ConnState.driverMock) :=
  connect_gating.1 (some ConnState.driverMock)

/-! ## The scheduler timer (`wxMeerK40t.__init__`, lines 412-415) -/

/-- What a `wx.Timer` of the application can be bound to. -/
inductive TimerHandler where
  | scheduler_main
  | unbound
  deriving DecidableEq, Repr

/-- The timer/scheduler configuration touched by `wxMeerK40t.__init__`. -/
structure AppSchedulerState where
  timer_handler : TimerHandler
  timer_interval : Nat
  timer_running : Bool
  scheduler_handles_main_thread_jobs : Bool
  deriving DecidableEq, Repr

/-- The configuration before lines 412-415 run: the freshly created `wx.Timer`
is unbound and stopped, and the kernel handles its main-thread jobs itself. -/
def AppSchedulerState.fresh : AppSchedulerState :=
  { timer_handler := .unbound
    timer_interval := 0
    timer_running := false
    scheduler_handles_main_thread_jobs := true }

/-- The three configuration effects of `wxMeerK40t.__init__`, lines 413-415:
`Bind(EVT_TIMER, handler, timer)`, the assignment to
`scheduler_handles_main_thread_jobs`, and `timer.Start(ms)`. -/
inductive InitStep where
  | bindTimer (h : TimerHandler)
  | setHandlesMainThreadJobs (b : Bool)
  | startTimer (ms : Nat)
  deriving DecidableEq, Repr

/-- Effect of one configuration statement on the scheduler state. -/
def applyInitStep (s : AppSchedulerState) (step : InitStep) : AppSchedulerState :=
  match step with
  | .bindTimer h => { s with timer_handler := h }
  | .setHandlesMainThreadJobs b => { s with scheduler_handles_main_thread_jobs := b }
  | .startTimer ms => { s with timer_interval := ms, timer_running := true }

/-- Lines 412-415 of `wxmeerk40t.py` in order: bind the timer to the kernel's
`scheduler_main`, set `scheduler_handles_main_thread_jobs = False`, start the
timer with interval 50. -/
def wxMeerK40tSchedulerInit : List InitStep :=
  [.bindTimer .scheduler_main, .setHandlesMainThreadJobs false, .startTimer 50]

/-- The scheduler configuration after `wxMeerK40t.__init__`. -/
def appSchedulerAfterInit : AppSchedulerState :=
  wxMeerK40tSchedulerInit.foldl applyInitStep AppSchedulerState.fresh

/-- The possible drains of queued main-thread work. -/
inductive MainThreadDrain where
  | kernelSelf
  | timerTick
  deriving DecidableEq, Repr

/-- Modelled from the spec: queued main-thread work is drained by the kernel's
own main-thread job handling when that is enabled, and by a running timer bound
to `scheduler_main` (§5 of the spec: a periodic tick-driven dispatch loop
rather than free-running threads). -/
def mainThreadDrains (s : AppSchedulerState) : List MainThreadDrain :=
  (if s.scheduler_handles_main_thread_jobs then [MainThreadDrain.kernelSelf]
   else []) ++
  (if s.timer_running ∧ s.timer_handler = .scheduler_main then
    [MainThreadDrain.timerTick]
   else [])

/-- C8: after GUI startup the timer is bound to the kernel's `scheduler_main`,
started with a fixed 50 ms interval, the kernel's own main-thread job handling
is disabled, and consequently the timer tick is the sole drain of queued
main-thread work. -/
theorem scheduler_tick_sole_drain :
    appSchedulerAfterInit.timer_handler = TimerHandler.scheduler_main ∧
    appSchedulerAfterInit.timer_interval = 50 ∧
    appSchedulerAfterInit.timer_running = true ∧
    appSchedulerAfterInit.scheduler_handles_main_thread_jobs = false ∧
    mainThreadDrains appSchedulerAfterInit = [MainThreadDrain.timerTick] := by
  refine ⟨rfl, rfl, rfl, rfl, ?_⟩
  decide

end MeerK40t
